import Mathlib

/-!
# Verification of the snake-killer game core

A shallow embedding of the simulation core of the snake-killer arcade
shooter (`src/js`, `src/unnamed`), together with theorems settling the
frozen claims about it.

Modelling conventions:

* JavaScript numbers are modelled as exact rationals (`ℚ`); the integer
  progression counters (`xp`, `level`, `totalKills`, `score`, `points`)
  are natural numbers, as in the source they are only ever incremented by
  integers or floored.
* The transcendental library functions the code calls (`Math.sin`,
  `Math.cos`, `Math.atan2`, `Math.sqrt`) and the ambient clocks
  (`Date.now()`, `Math.random()`) are abstracted into a `MathOracle`
  record of rational-valued functions that every embedded operation takes
  as a parameter; theorems quantify over the oracle, so they hold for any
  interpretation of those functions.  The one place where the *meaning*
  of `Math.sqrt` matters to a claim is `circleCollision`, which the
  source computes as `sqrt(dx²+dy²) < r1+r2`; we embed the equivalent
  exact-rational condition `dx²+dy² < (r1+r2)² ∧ 0 ≤ r1+r2` and prove
  the equivalence with `Real.sqrt` in `circleCollision_eq_real_sqrt`.
* JavaScript arrays are lists, object mutation is explicit state passing,
  and the `Map` of active power-ups is an insertion-ordered association
  list with `Map.set` update semantics (`PowerupManager.mapSet`).
* Rendering, colors, DOM/HUD wiring and audio are output sinks outside
  the simulation core and are not modelled; fields that exist only to be
  drawn (colors, icons) are omitted from the structures.
-/

/-! ## Geometry and math utilities (src/js/hud.js, utility section) -/

/-- Model of `clamp(value, min, max) = Math.max(min, Math.min(max, value))`. -/
def clamp (value lo hi : ℚ) : ℚ :=
  max lo (min hi value)

/-- Circle collision data, as returned by every `getCollisionBounds`. -/
structure CollisionCircle where
  x : ℚ
  y : ℚ
  radius : ℚ
deriving DecidableEq

/-- Model of `circleCollision(c1, c2)`: the source computes
`distance(c1, c2) < c1.radius + c2.radius` with `distance` the Euclidean
square root; over the rationals we use the equivalent squared comparison
(the second conjunct covers a non-positive radius sum, where the square
root comparison is vacuously false).  `circleCollision_eq_real_sqrt`
below proves the equivalence with the real square root. -/
def circleCollision (c1 c2 : CollisionCircle) : Prop :=
  (c1.x - c2.x) ^ 2 + (c1.y - c2.y) ^ 2 < (c1.radius + c2.radius) ^ 2
    ∧ 0 ≤ c1.radius + c2.radius

instance (c1 c2 : CollisionCircle) : Decidable (circleCollision c1 c2) := by
  unfold circleCollision
  exact instDecidableAnd

/-- Oracle for the transcendental library functions and ambient clocks the
code calls; the embedding is parametric in it. -/
structure MathOracle where
  sin : ℚ → ℚ
  cos : ℚ → ℚ
  sqrt : ℚ → ℚ
  atan2 : ℚ → ℚ → ℚ
  pi : ℚ
  rand : ℚ
  now : ℚ

/-- Model of `angleBetween(x1, y1, x2, y2) = Math.atan2(y2 - y1, x2 - x1)`. -/
def angleBetween (o : MathOracle) (x1 y1 x2 y2 : ℚ) : ℚ :=
  o.atan2 (y2 - y1) (x2 - x1)

/-! ## Weapon configuration (src/js/weapons.js)

Only the fields the simulation reads are kept; `name`, `icon`,
`description` and `bulletColor` are presentation metadata. -/

structure Weapon where
  id : String
  damage : ℚ
  fireRate : ℚ
  bulletSpeed : ℚ
  bulletSize : ℚ
  count : ℕ
  spread : ℚ
deriving DecidableEq

def WEAPONS_PISTOL : Weapon :=
  { id := "pistol", damage := 25, fireRate := 0.4, bulletSpeed := 500,
    bulletSize := 1, count := 1, spread := 0 }

def WEAPONS_RAPID : Weapon :=
  { id := "rapid", damage := 12, fireRate := 0.12, bulletSpeed := 600,
    bulletSize := 0.6, count := 1, spread := 0.1 }

def WEAPONS_SHOTGUN : Weapon :=
  { id := "shotgun", damage := 18, fireRate := 0.9, bulletSpeed := 400,
    bulletSize := 0.7, count := 5, spread := 0.4 }

def WEAPONS_TANK : Weapon :=
  { id := "tank", damage := 100, fireRate := 1.2, bulletSpeed := 300,
    bulletSize := 4, count := 1, spread := 0 }

/-! ## Bullet (src/js/bullet.js) -/

/-- The player's boolean power-up flags (`this.powerups` in player.js).
The bullet constructor receives this object as its `modifiers` argument;
the ally passes `{}`, which reads as all flags false. -/
structure Powerups where
  rapidFire : Bool
  wideShot : Bool
  shield : Bool
  fasterGuns : Bool
  freezeSnakes : Bool
deriving DecidableEq

/-- All power-up flags false: the `{}` modifiers object. -/
def Powerups.none : Powerups :=
  { rapidFire := false, wideShot := false, shield := false,
    fasterGuns := false, freezeSnakes := false }

structure Bullet where
  x : ℚ
  y : ℚ
  angle : ℚ
  radius : ℚ
  speed : ℚ
  damage : ℚ
  vx : ℚ
  vy : ℚ
  trail : List (ℚ × ℚ)
  maxTrailLength : ℕ
  active : Bool
deriving DecidableEq

/-- Model of the `Bullet` constructor.  `GAME_CONSTANTS.BULLET_RADIUS = 6`.
Every call site in the source passes a non-null weapon, so the
`weapon || default` fallback is unreachable and not modelled. -/
def Bullet.make (o : MathOracle) (x y angle : ℚ) (weapon : Weapon)
    (modifiers : Powerups) : Bullet :=
  let speedMult : ℚ := if modifiers.fasterGuns then 1.5 else 1
  let radius := max 2 (weapon.bulletSize * 6 * (if modifiers.wideShot then 1.5 else 1))
  let speed := weapon.bulletSpeed * speedMult
  let damage := weapon.damage * (if modifiers.wideShot then 1.5 else 1)
  { x := x, y := y, angle := angle, radius := radius, speed := speed,
    damage := damage, vx := o.cos angle * speed, vy := o.sin angle * speed,
    trail := [], maxTrailLength := 8, active := true }

/-- Model of `Bullet.update(deltaTime, canvasWidth, canvasHeight)`. -/
def Bullet.update (b : Bullet) (deltaTime canvasWidth canvasHeight : ℚ) : Bullet :=
  let trail := (b.x, b.y) :: b.trail
  let trail := if b.maxTrailLength < trail.length then trail.dropLast else trail
  let x := b.x + b.vx * deltaTime
  let y := b.y + b.vy * deltaTime
  let margin := b.radius * 2
  let active :=
    if x < -margin ∨ canvasWidth + margin < x ∨ y < -margin ∨ canvasHeight + margin < y
    then false else b.active
  { b with x := x, y := y, trail := trail, active := active }

def Bullet.getCollisionBounds (b : Bullet) : CollisionCircle :=
  { x := b.x, y := b.y, radius := b.radius }

/-- Model of `Bullet.destroy()`. -/
def Bullet.destroy (b : Bullet) : Bullet :=
  { b with active := false }

/-! ## Snake enemy (src/js/snake.js)

The constructor draws random spawn positions and stat variations; claims
quantify over arbitrary snake states instead, so it is not modelled.
`hue` is render-only and omitted. -/

structure Segment where
  x : ℚ
  y : ℚ
  radius : ℚ
deriving DecidableEq

structure Snake where
  x : ℚ
  y : ℚ
  radius : ℚ
  speed : ℚ
  baseSpeed : ℚ
  maxHealth : ℚ
  health : ℚ
  xpValue : ℕ
  bodySegments : List Segment
  vx : ℚ
  vy : ℚ
  targetX : ℚ
  targetY : ℚ
  wobbleOffset : ℚ
  wobbleSpeed : ℚ
  active : Bool
  hitFlash : ℚ
  frozen : Bool
deriving DecidableEq

/-- Model of `Snake.updateBodySegments()`: the head tracks the snake's
position and each later segment is pulled toward its predecessor, clamped
to a maximum spacing of `0.8 * radius`. -/
def Snake.updateBodySegments (o : MathOracle) (s : Snake) : Snake :=
  match s.bodySegments with
  | [] => s
  | first :: rest =>
    let first := { first with x := s.x, y := s.y }
    let spacing := s.radius * 0.8
    let follow := fun (acc : Segment × List Segment) (curr : Segment) =>
      let prev := acc.1
      let dx := prev.x - curr.x
      let dy := prev.y - curr.y
      let dist := o.sqrt (dx ^ 2 + dy ^ 2)
      let curr :=
        if spacing < dist then
          { curr with x := prev.x - dx * (spacing / dist),
                      y := prev.y - dy * (spacing / dist) }
        else curr
      (curr, acc.2 ++ [curr])
    { s with bodySegments := first :: (rest.foldl follow (first, [])).2 }

/-- Model of `Snake.update(deltaTime, playerX, playerY)`: frozen snakes only
decay their hit flash; otherwise the snake steers toward the player, adds a
perpendicular sinusoidal wobble, moves, and drags its body segments. -/
def Snake.update (o : MathOracle) (s : Snake) (deltaTime playerX playerY : ℚ) : Snake :=
  if s.frozen then
    if 0 < s.hitFlash then { s with hitFlash := s.hitFlash - deltaTime * 5 } else s
  else
    let s := { s with targetX := playerX, targetY := playerY }
    let dx := s.targetX - s.x
    let dy := s.targetY - s.y
    let dist := o.sqrt (dx * dx + dy * dy)
    let s :=
      if 0 < dist then
        { s with vx := dx / dist * s.speed, vy := dy / dist * s.speed }
      else s
    let wobble := o.sin (o.now * 0.005 * s.wobbleSpeed + s.wobbleOffset)
    let perpX := -s.vy
    let perpY := s.vx
    let wobbleStrength : ℚ := 0.3
    let s := { s with x := s.x + (s.vx + perpX * wobble * wobbleStrength) * deltaTime,
                      y := s.y + (s.vy + perpY * wobble * wobbleStrength) * deltaTime }
    let s := s.updateBodySegments o
    if 0 < s.hitFlash then { s with hitFlash := s.hitFlash - deltaTime * 5 } else s

/-- Model of `Snake.takeDamage(damage)`: subtracts the damage, lights the
hit flash, and deactivates the snake (returning `true`) when health falls
to zero or below.  Health is not clamped. -/
def Snake.takeDamage (s : Snake) (damage : ℚ) : Snake × Bool :=
  let s := { s with health := s.health - damage, hitFlash := 1 }
  if s.health ≤ 0 then ({ s with active := false }, true) else (s, false)

def Snake.getCollisionBounds (s : Snake) : CollisionCircle :=
  { x := s.x, y := s.y, radius := s.radius }

/-! ## Player (src/js/player.js)

Input handlers and the render pipeline are outside the core; the input
state they write (`keys`, `mouseX/Y`, `mouseDown`) is part of the player
state and read by `update`.  Character colors are render-only and
omitted. -/

structure Keys where
  up : Bool
  down : Bool
  left : Bool
  right : Bool
deriving DecidableEq

structure Player where
  x : ℚ
  y : ℚ
  radius : ℚ
  speed : ℚ
  maxHealth : ℚ
  health : ℚ
  currentWeapon : Weapon
  lastShootTime : ℚ
  muzzleFlashTime : ℚ
  recoilOffset : ℚ
  gunLength : ℚ
  gunOffsetY : ℚ
  keys : Keys
  mouseX : ℚ
  mouseY : ℚ
  mouseDown : Bool
  powerups : Powerups
  rotation : ℚ
  pulsePhase : ℚ
  active : Bool
  invulnerable : Bool
  invulnerableTime : ℚ
deriving DecidableEq

def Player.getCollisionBounds (p : Player) : CollisionCircle :=
  { x := p.x, y := p.y, radius := p.radius }

/-- Model of `Player.setInvulnerable(duration)`. -/
def Player.setInvulnerable (p : Player) (duration : ℚ) : Player :=
  { p with invulnerable := true, invulnerableTime := duration }

/-- Model of `Player.takeDamage(damage)`: a no-op returning `false` while
invulnerable or shielded; otherwise subtract health, grant a one-second
invulnerability window, and on death clamp health to 0, deactivate, and
return `true`. -/
def Player.takeDamage (p : Player) (damage : ℚ) : Player × Bool :=
  if p.invulnerable = true ∨ p.powerups.shield = true then (p, false)
  else
    let p := { p with health := p.health - damage }
    let p := p.setInvulnerable 1
    if p.health ≤ 0 then ({ p with health := 0, active := false }, true)
    else (p, false)

/-- Model of `Player.heal(amount)`. -/
def Player.heal (p : Player) (amount : ℚ) : Player :=
  { p with health := min (p.health + amount) p.maxHealth }

/-- Model of `Player.applyPowerup(type, duration)`: sets the flag for a
known id and silently ignores unknown ids (`hasOwnProperty` check); the
`duration` argument is accepted and unused, as in the source. -/
def Player.applyPowerup (p : Player) (type : String) (_duration : ℚ) : Player :=
  if type = "rapidFire" then { p with powerups := { p.powerups with rapidFire := true } }
  else if type = "wideShot" then { p with powerups := { p.powerups with wideShot := true } }
  else if type = "shield" then { p with powerups := { p.powerups with shield := true } }
  else if type = "fasterGuns" then { p with powerups := { p.powerups with fasterGuns := true } }
  else if type = "freezeSnakes" then { p with powerups := { p.powerups with freezeSnakes := true } }
  else p

/-- Model of `Player.removePowerup(type)`. -/
def Player.removePowerup (p : Player) (type : String) : Player :=
  if type = "rapidFire" then { p with powerups := { p.powerups with rapidFire := false } }
  else if type = "wideShot" then { p with powerups := { p.powerups with wideShot := false } }
  else if type = "shield" then { p with powerups := { p.powerups with shield := false } }
  else if type = "fasterGuns" then { p with powerups := { p.powerups with fasterGuns := false } }
  else if type = "freezeSnakes" then { p with powerups := { p.powerups with freezeSnakes := false } }
  else p

/-- Model of `Player.canShoot()`: the cooldown is the weapon's fire rate in
milliseconds, halved under rapid fire and divided by 1.5 under faster
guns (the two stack); `Date.now()` is the oracle's clock. -/
def Player.canShoot (o : MathOracle) (p : Player) : Bool :=
  let cooldown := p.currentWeapon.fireRate * 1000
  let cooldown := if p.powerups.rapidFire then cooldown / 2 else cooldown
  let cooldown := if p.powerups.fasterGuns then cooldown / 1.5 else cooldown
  decide (cooldown ≤ o.now - p.lastShootTime)

/-- Model of `Player.shoot()`: stamps the shot time and shooting animation,
computes the gun-barrel spawn point, and returns the new projectiles — a
spread of `count` bullets for multi-projectile weapons, otherwise a single
bullet with random jitter.  The JS duck-typed `Bullet | Bullet[]` return is
uniformly a list. -/
def Player.shoot (o : MathOracle) (p : Player) : Player × List Bullet :=
  let p := { p with lastShootTime := o.now, muzzleFlashTime := 0.08, recoilOffset := 5 }
  let gunEndX := p.x + o.cos p.rotation * (p.gunLength - p.recoilOffset)
  let gunEndY := p.y + o.sin p.rotation * (p.gunLength - p.recoilOffset)
  let perpAngle := p.rotation - o.pi / 2
  let spawnX := gunEndX + o.cos perpAngle * p.gunOffsetY * 0.3
  let spawnY := gunEndY + o.sin perpAngle * p.gunOffsetY * 0.3
  if 1 < p.currentWeapon.count then
    let totalSpread := p.currentWeapon.spread
    let startAngle := p.rotation - totalSpread / 2
    let step := totalSpread / ((p.currentWeapon.count : ℚ) - 1)
    (p, (List.range p.currentWeapon.count).map fun i =>
      Bullet.make o spawnX spawnY (startAngle + step * i) p.currentWeapon p.powerups)
  else
    let spread := (o.rand - 0.5) * p.currentWeapon.spread
    (p, [Bullet.make o spawnX spawnY (p.rotation + spread) p.currentWeapon p.powerups])

/-- The shooting-animation decay at the top of `Player.update`: pulse
phase, muzzle flash countdown, and recoil recovery. -/
def Player.updateAnimations (p : Player) (deltaTime : ℚ) : Player :=
  let p := { p with pulsePhase := p.pulsePhase + deltaTime * 4 }
  let p := if 0 < p.muzzleFlashTime
    then { p with muzzleFlashTime := p.muzzleFlashTime - deltaTime } else p
  if 0 < p.recoilOffset
    then { p with recoilOffset := max 0 (p.recoilOffset - deltaTime * 40) } else p

/-- The movement block of `Player.update`: keyboard velocity with diagonal
normalization, position update, bounds clamping, and aim rotation. -/
def Player.updateMovement (o : MathOracle) (p : Player)
    (deltaTime canvasWidth canvasHeight : ℚ) : Player :=
  let vx : ℚ := (if p.keys.left then -1 else 0) + (if p.keys.right then 1 else 0)
  let vy : ℚ := (if p.keys.up then -1 else 0) + (if p.keys.down then 1 else 0)
  let factor := 1 / o.sqrt 2
  let v := if vx ≠ 0 ∧ vy ≠ 0 then (vx * factor, vy * factor) else (vx, vy)
  let p := { p with x := p.x + v.1 * p.speed * deltaTime,
                    y := p.y + v.2 * p.speed * deltaTime }
  let p := { p with x := clamp p.x p.radius (canvasWidth - p.radius),
                    y := clamp p.y p.radius (canvasHeight - p.radius) }
  { p with rotation := angleBetween o p.x p.y p.mouseX p.mouseY }

/-- The invulnerability countdown of `Player.update`. -/
def Player.updateInvulnerability (p : Player) (deltaTime : ℚ) : Player :=
  if p.invulnerable then
    let p := { p with invulnerableTime := p.invulnerableTime - deltaTime }
    if p.invulnerableTime ≤ 0 then { p with invulnerable := false } else p
  else p

/-- Model of `Player.update(deltaTime, canvasWidth, canvasHeight)`:
animation timers, keyboard movement with diagonal normalization, bounds
clamping, aim rotation, invulnerability countdown, and firing while the
mouse is held and the cooldown has elapsed — the stages named above, in
the source's order.  Returns the player plus the fired bullets (empty
when not shooting). -/
def Player.update (o : MathOracle) (p : Player)
    (deltaTime canvasWidth canvasHeight : ℚ) : Player × List Bullet :=
  let p := p.updateAnimations deltaTime
  let p := p.updateMovement o deltaTime canvasWidth canvasHeight
  let p := p.updateInvulnerability deltaTime
  if p.mouseDown && p.canShoot o then p.shoot o else (p, [])

/-! ## Leveling system (src/js/hud.js, `LevelingSystem`)

`GAME_CONSTANTS.SNAKE_SPAWN_RATE = 1500` and
`GAME_CONSTANTS.SNAKE_MIN_SPAWN_RATE = 400` (milliseconds). -/

def SNAKE_SPAWN_RATE : ℕ := 1500

def SNAKE_MIN_SPAWN_RATE : ℕ := 400

structure LevelingSystem where
  xp : ℕ
  level : ℕ
  totalKills : ℕ
  score : ℕ
deriving DecidableEq

/-- Model of `LevelingSystem.getXpForLevel(level) = Math.floor(100 * level^1.5)`:
over the naturals, `⌊100·level^1.5⌋ = ⌊√(10000·level³)⌋ = Nat.sqrt (10000·level³)`.
(The rounding of IEEE-754 `Math.pow` stays far below the gaps between
consecutive values, so the exact form is the faithful reading.) -/
def LevelingSystem.getXpForLevel (level : ℕ) : ℕ :=
  Nat.sqrt (10000 * level ^ 3)

/-- Model of `LevelingSystem.getXpToNextLevel()`. -/
def LevelingSystem.getXpToNextLevel (ls : LevelingSystem) : ℕ :=
  LevelingSystem.getXpForLevel ls.level

/-- The `while (this.xp >= this.getXpToNextLevel())` loop of
`LevelingSystem.addXp`, returning the final xp, the final level, and how
many times the loop body ran (= how many `onLevelUp` notifications fired).
The added guard `0 < getXpForLevel level` makes the recursion terminate on
all inputs; it never changes behaviour on reachable states, where
`level ≥ 1` and hence `getXpForLevel level ≥ 100`
(`LevelingSystem.getXpForLevel_pos`). -/
def LevelingSystem.levelUpLoop (xp level : ℕ) : ℕ × ℕ × ℕ :=
  if h : 0 < LevelingSystem.getXpForLevel level ∧ LevelingSystem.getXpForLevel level ≤ xp then
    let r := LevelingSystem.levelUpLoop (xp - LevelingSystem.getXpForLevel level) (level + 1)
    (r.1, r.2.1, r.2.2 + 1)
  else
    (xp, level, 0)
termination_by xp
decreasing_by omega

/-- Model of `LevelingSystem.addXp(amount)`: adds the xp, counts the kill,
adds `amount * 10` to the score, then consumes level-ups.  Returns the new
state, whether at least one level-up occurred (the JS return value), and
the number of `onLevelUp` notifications fired. -/
def LevelingSystem.addXp (ls : LevelingSystem) (amount : ℕ) : LevelingSystem × Bool × ℕ :=
  let r := LevelingSystem.levelUpLoop (ls.xp + amount) ls.level
  ({ xp := r.1, level := r.2.1, totalKills := ls.totalKills + 1,
     score := ls.score + amount * 10 }, decide (0 < r.2.2), r.2.2)

/-- Model of `LevelingSystem.getSpawnRate()`: the spawn interval drops by
100 ms every 2 levels, floored at the minimum spawn rate. -/
def LevelingSystem.getSpawnRate (ls : LevelingSystem) : ℕ :=
  max SNAKE_MIN_SPAWN_RATE (SNAKE_SPAWN_RATE - (ls.level - 1) / 2 * 100)

/-- The record `LevelingSystem.getDifficultyInfo()` returns. -/
structure DifficultyInfo where
  healthMultiplier : ℚ
  speedMultiplier : ℚ
  spawnRate : ℕ
  maxSnakes : ℕ
deriving DecidableEq

/-- Model of `LevelingSystem.getDifficultyInfo()`. -/
def LevelingSystem.getDifficultyInfo (ls : LevelingSystem) : DifficultyInfo :=
  { healthMultiplier := 1 + ((ls.level : ℚ) - 1) * 0.2,
    speedMultiplier := 1 + ((ls.level : ℚ) - 1) * 0.1,
    spawnRate := ls.getSpawnRate,
    maxSnakes := 10 + ls.level * 2 }

/-! ## Power-up manager (src/unnamed/part_001, second revision)

Power-up definitions keep the fields the manager's logic reads (`id`,
`duration`); `name`, `icon`, `color`, `description` and `cost` are
activation-UI metadata consumed outside the manager. -/

structure PowerupDef where
  id : String
  duration : ℚ
deriving DecidableEq

/-- The four legacy level-triggered power-up definitions (`POWERUP_TYPES`). -/
def POWERUP_TYPES : List PowerupDef :=
  [{ id := "rapidFire", duration := 10 }, { id := "wideShot", duration := 10 },
   { id := "shield", duration := 5 }, { id := "nuke", duration := 0 }]

/-- The four currency-purchased power packs (`POWER_PACKS`). -/
def POWER_PACKS : List PowerupDef :=
  [{ id := "fasterGuns", duration := 12 }, { id := "shield", duration := 8 },
   { id := "freezeSnakes", duration := 5 }, { id := "callForHelp", duration := 15 }]

/-- An entry of the active-power-up `Map`: the spread copy of the power-up
definition plus its remaining time. -/
structure PowerupEntry where
  pdef : PowerupDef
  remainingTime : ℚ
deriving DecidableEq

/-- The manager's state.  `activePowerups` models the JS `Map` as an
insertion-ordered association list; `frozenSnakes` only stores an array
reference that is never read for behaviour and is omitted. -/
structure PowerupManager where
  activePowerups : List (String × PowerupEntry)
  pendingAllySpawn : Bool
deriving DecidableEq

/-- JS `Map.set(k, v)` on the association-list model: updates the value in
place (keeping insertion order) when the key is present, appends
otherwise. -/
def PowerupManager.mapSet (m : List (String × PowerupEntry)) (k : String)
    (v : PowerupEntry) : List (String × PowerupEntry) :=
  if m.any (fun e => e.1 == k) then
    m.map (fun e => if e.1 = k then (k, v) else e)
  else
    m ++ [(k, v)]

/-- Model of `PowerupManager.triggerNuke(snakes)`: 100 damage to every
active snake; returns the snakes and the total xp of the kills (which the
caller discards). -/
def PowerupManager.triggerNuke (snakes : List Snake) : List Snake × ℕ :=
  snakes.foldl
    (fun acc s =>
      if s.active then
        let r := s.takeDamage 100
        (acc.1 ++ [r.1], acc.2 + if r.2 then s.xpValue else 0)
      else (acc.1 ++ [s], acc.2))
    ([], 0)

/-- Model of `PowerupManager.triggerFreeze(snakes, duration)`: marks every
active snake frozen; the `duration` argument is unused, as in the source. -/
def PowerupManager.triggerFreeze (snakes : List Snake) (_duration : ℚ) : List Snake :=
  snakes.map (fun s => if s.active then { s with frozen := true } else s)

/-- Model of `PowerupManager.unfreezeAll(snakes)`. -/
def PowerupManager.unfreezeAll (snakes : List Snake) : List Snake :=
  snakes.map (fun s => { s with frozen := false })

/-- Model of `PowerupManager.activate(powerup, player, snakes)`: `nuke` is
instant and never stored; `freezeSnakes` freezes and is stored;
`callForHelp` sets the pending-ally flag and is stored; every other id is
applied to the player as a flag and stored.  Storing uses `Map.set`, so an
already-active id is overwritten, not duplicated. -/
def PowerupManager.activate (pm : PowerupManager) (powerup : PowerupDef)
    (player : Player) (snakes : List Snake) : PowerupManager × Player × List Snake :=
  let entry : PowerupEntry := { pdef := powerup, remainingTime := powerup.duration }
  if powerup.id = "nuke" then
    (pm, player, (PowerupManager.triggerNuke snakes).1)
  else if powerup.id = "freezeSnakes" then
    let snakes := PowerupManager.triggerFreeze snakes powerup.duration
    ({ pm with activePowerups := PowerupManager.mapSet pm.activePowerups powerup.id entry }, player, snakes)
  else if powerup.id = "callForHelp" then
    ({ pm with pendingAllySpawn := true, activePowerups := PowerupManager.mapSet pm.activePowerups powerup.id entry }, player, snakes)
  else
    let player := player.applyPowerup powerup.id powerup.duration
    ({ pm with activePowerups := PowerupManager.mapSet pm.activePowerups powerup.id entry }, player, snakes)

/-- Model of `PowerupManager.hasActivePowerup()`. -/
def PowerupManager.hasActivePowerup (pm : PowerupManager) : Bool :=
  decide (0 < pm.activePowerups.length)

/-! ## Ally (src/unnamed/part_000, `Ally`)

The constructor draws a random spawn column; claims quantify over
arbitrary ally states, so only the per-tick behaviour is modelled.
Character colors are render-only and omitted. -/

/-- The ally's finite state machine. -/
inductive AllyState where
  | descending
  | landing
  | active
  | despawning
  | inactive
deriving DecidableEq

/-- The successor along the documented order
`descending → landing → active → despawning → inactive`. -/
def AllyState.next : AllyState → AllyState
  | .descending => .landing
  | .landing => .active
  | .active => .despawning
  | .despawning => .inactive
  | .inactive => .inactive

structure Ally where
  x : ℚ
  y : ℚ
  landingY : ℚ
  canvasWidth : ℚ
  canvasHeight : ℚ
  radius : ℚ
  speed : ℚ
  state : AllyState
  active : Bool
  descentSpeed : ℚ
  parachuteSwing : ℚ
  parachuteSwingSpeed : ℚ
  landingDustTime : ℚ
  weapon : Weapon
  fireRateMultiplier : ℚ
  shootCooldown : ℚ
  lastShootTime : ℚ
  targetSnake : Option Snake
  rotation : ℚ
  lifespan : ℚ
  timeAlive : ℚ
  despawnFade : ℚ
  despawnDuration : ℚ
  pulsePhase : ℚ
  muzzleFlashTime : ℚ
  recoilOffset : ℚ
  gunLength : ℚ
  gunOffsetY : ℚ

/-- Model of `Ally.findNearestSnake(snakes)`: linear scan over the active
snakes keeping the strictly smallest distance, so the first snake at the
minimum distance wins. -/
def Ally.findNearestSnake (o : MathOracle) (a : Ally) (snakes : List Snake) : Option Snake :=
  (snakes.foldl
    (fun (acc : Option Snake × Option ℚ) s =>
      if s.active = false then acc
      else
        let dist := o.sqrt ((s.x - a.x) ^ 2 + (s.y - a.y) ^ 2)
        match acc.2 with
        | Option.none => (some s, some dist)
        | some minDist => if dist < minDist then (some s, some dist) else acc)
    (Option.none, Option.none)).1

/-- Model of `Ally.canShoot()`. -/
def Ally.canShoot (o : MathOracle) (a : Ally) : Bool :=
  decide (a.shootCooldown ≤ o.now - a.lastShootTime)

/-- Model of `Ally.shoot()`: same multi-pellet weapon logic as the player,
but with empty modifiers — the ally gets no benefit from the player's
power-ups. -/
def Ally.shoot (o : MathOracle) (a : Ally) : Ally × List Bullet :=
  let a := { a with lastShootTime := o.now, muzzleFlashTime := 0.08, recoilOffset := 4 }
  let gunEndX := a.x + o.cos a.rotation * (a.gunLength - a.recoilOffset)
  let gunEndY := a.y + o.sin a.rotation * (a.gunLength - a.recoilOffset)
  let perpAngle := a.rotation - o.pi / 2
  let spawnX := gunEndX + o.cos perpAngle * a.gunOffsetY * 0.3
  let spawnY := gunEndY + o.sin perpAngle * a.gunOffsetY * 0.3
  if 1 < a.weapon.count then
    let totalSpread := a.weapon.spread
    let startAngle := a.rotation - totalSpread / 2
    let step := totalSpread / ((a.weapon.count : ℚ) - 1)
    (a, (List.range a.weapon.count).map fun i =>
      Bullet.make o spawnX spawnY (startAngle + step * i) a.weapon Powerups.none)
  else
    let spread := (o.rand - 0.5) * a.weapon.spread
    (a, [Bullet.make o spawnX spawnY (a.rotation + spread) a.weapon Powerups.none])

/-- Model of `Ally.updateDescending(deltaTime)`: straight descent plus
sinusoidal drift, clamped horizontally; lands (state `landing`, 400 ms of
dust) once the landing line is reached.  Never returns bullets. -/
def Ally.updateDescending (a : Ally) (o : MathOracle) (deltaTime : ℚ) : Ally :=
  let a := { a with y := a.y + a.descentSpeed * deltaTime }
  let a := { a with parachuteSwing := a.parachuteSwing + a.parachuteSwingSpeed * deltaTime }
  let a := { a with x := a.x + o.sin a.parachuteSwing * 20 * deltaTime }
  let a := { a with x := clamp a.x 80 (a.canvasWidth - 80) }
  if a.landingY ≤ a.y then
    { a with y := a.landingY, state := AllyState.landing, landingDustTime := 0.4 }
  else a

/-- Model of `Ally.updateLanding(deltaTime)`: counts the dust window down
and enters `active` with a fresh lifespan timer.  Never returns bullets. -/
def Ally.updateLanding (a : Ally) (deltaTime : ℚ) : Ally :=
  let a := { a with landingDustTime := a.landingDustTime - deltaTime }
  if a.landingDustTime ≤ 0 then
    { a with state := AllyState.active, timeAlive := 0 }
  else a

/-- Model of `Ally.updateActive(deltaTime, snakes)`: lifespan countdown
(entering `despawning` when it elapses), nearest-snake targeting,
keep-distance movement, bounds clamping, and shooting on cooldown; with no
target it idles and slowly rotates. -/
def Ally.updateActive (a : Ally) (o : MathOracle) (deltaTime : ℚ)
    (snakes : List Snake) : Ally × List Bullet :=
  let a := { a with timeAlive := a.timeAlive + deltaTime }
  if a.lifespan ≤ a.timeAlive then
    ({ a with state := AllyState.despawning, despawnFade := 1 }, [])
  else
    let a := { a with targetSnake := a.findNearestSnake o snakes }
    match a.targetSnake with
    | some target =>
      let a := { a with rotation := angleBetween o a.x a.y target.x target.y }
      let dist := o.sqrt ((target.x - a.x) ^ 2 + (target.y - a.y) ^ 2)
      let keepDistance : ℚ := 150
      let a :=
        if keepDistance < dist then
          let nx := (target.x - a.x) / dist
          let ny := (target.y - a.y) / dist
          { a with x := a.x + nx * a.speed * deltaTime,
                   y := a.y + ny * a.speed * deltaTime }
        else if dist < keepDistance * 0.7 then
          let nx := (a.x - target.x) / dist
          let ny := (a.y - target.y) / dist
          { a with x := a.x + nx * a.speed * 0.5 * deltaTime,
                   y := a.y + ny * a.speed * 0.5 * deltaTime }
        else a
      let a := { a with x := clamp a.x a.radius (a.canvasWidth - a.radius),
                        y := clamp a.y a.radius (a.canvasHeight - a.radius) }
      if a.canShoot o then a.shoot o else (a, [])
    | Option.none =>
      ({ a with rotation := a.rotation + deltaTime * 0.5 }, [])

/-- Model of `Ally.updateDespawning(deltaTime)`: fades out and, once fully
faded, becomes `inactive` and clears the active flag.  Position is never
touched. -/
def Ally.updateDespawning (a : Ally) (deltaTime : ℚ) : Ally :=
  let a := { a with despawnFade := a.despawnFade - deltaTime / a.despawnDuration }
  if a.despawnFade ≤ 0 then
    { a with despawnFade := 0, active := false, state := AllyState.inactive }
  else a

/-- The shared animation decay at the top of `Ally.update`: pulse phase,
muzzle flash countdown, and recoil recovery. -/
def Ally.updateAnimations (a : Ally) (deltaTime : ℚ) : Ally :=
  let a := { a with pulsePhase := a.pulsePhase + deltaTime * 4 }
  let a := if 0 < a.muzzleFlashTime
    then { a with muzzleFlashTime := a.muzzleFlashTime - deltaTime } else a
  if 0 < a.recoilOffset
    then { a with recoilOffset := max 0 (a.recoilOffset - deltaTime * 40) } else a

/-- Model of `Ally.update(deltaTime, snakes)`: early-out when inactive,
shared animation decay, then the state machine.  The JS
`Bullet | Bullet[] | null` return is uniformly a list. -/
def Ally.update (a : Ally) (o : MathOracle) (deltaTime : ℚ)
    (snakes : List Snake) : Ally × List Bullet :=
  if a.active = false then (a, [])
  else
    let a := a.updateAnimations deltaTime
    match a.state with
    | AllyState.descending => (a.updateDescending o deltaTime, [])
    | AllyState.landing => (a.updateLanding deltaTime, [])
    | AllyState.active => a.updateActive o deltaTime snakes
    | AllyState.despawning => (a.updateDespawning deltaTime, [])
    | AllyState.inactive => (a, [])

/-! ## Game orchestrator (src/js/game.js)

Only the parts the claims are about are embedded: the delta-time capping
of `gameLoop` and the collision resolution of `checkCollisions`.  The
game state `checkCollisions` touches besides the bullet and snake
collections is gathered in `GameCtx`. -/

/-- Model of the delta-time capping in `Game.gameLoop`:
`Math.min(deltaTime, 0.1)` (seconds). -/
def Game.cappedDelta (deltaTime : ℚ) : ℚ :=
  min deltaTime 0.1

/-- The game fields `checkCollisions` reads and writes besides the bullet
and snake collections: the player, the leveling system, and the points
currency. -/
structure GameCtx where
  player : Player
  leveling : LevelingSystem
  points : ℕ
deriving DecidableEq

/-- The `if (killed)` branch of the bullet-snake loop in
`Game.checkCollisions`: award the xp (possibly levelling up), heal 20 HP
on every 5th cumulative kill when below max health, and award one currency
point. -/
def Game.handleKill (ctx : GameCtx) (xpValue : ℕ) : GameCtx :=
  let leveling := (ctx.leveling.addXp xpValue).1
  let player :=
    if 0 < leveling.totalKills ∧ leveling.totalKills % 5 = 0 then
      if ctx.player.health < ctx.player.maxHealth then ctx.player.heal 20 else ctx.player
    else ctx.player
  { player := player, leveling := leveling, points := ctx.points + 1 }

/-- One step of the inner `snakes.forEach` of the bullet-snake loop: the
accumulator carries the (possibly already destroyed) bullet, the snakes
processed so far, and the game context.  Note the source consults
`bullet.active` only before this inner loop starts, never inside it. -/
def Game.bulletSnakeStep (bounds : CollisionCircle)
    (acc : Bullet × List Snake × GameCtx) (s : Snake) : Bullet × List Snake × GameCtx :=
  if s.active = false then (acc.1, acc.2.1 ++ [s], acc.2.2)
  else if circleCollision bounds s.getCollisionBounds then
    let b := acc.1.destroy
    let r := s.takeDamage b.damage
    let ctx := if r.2 then Game.handleKill acc.2.2 s.xpValue else acc.2.2
    (b, acc.2.1 ++ [r.1], ctx)
  else (acc.1, acc.2.1 ++ [s], acc.2.2)

/-- One step of the outer `bullets.forEach` of the bullet-snake loop:
inactive bullets are skipped; for an active bullet the collision bounds
are captured once and the snake list is traversed. -/
def Game.bulletStep (acc : List Bullet × List Snake × GameCtx) (b : Bullet) :
    List Bullet × List Snake × GameCtx :=
  if b.active = false then (acc.1 ++ [b], acc.2.1, acc.2.2)
  else
    let bounds := b.getCollisionBounds
    let r := acc.2.1.foldl (Game.bulletSnakeStep bounds) (b, [], acc.2.2)
    (acc.1 ++ [r.1], r.2.1, r.2.2)

/-- The bullet-snake phase of `Game.checkCollisions` (game.js lines
496-529). -/
def Game.checkBulletSnakeCollisions (bullets : List Bullet) (snakes : List Snake)
    (ctx : GameCtx) : List Bullet × List Snake × GameCtx :=
  bullets.foldl Game.bulletStep ([], snakes, ctx)

/-- One step of the snake-player loop of `Game.checkCollisions`: an active
snake overlapping the player deals `5 + Math.floor(radius * 0.5)` contact
damage and is deactivated. -/
def Game.snakePlayerStep (playerBounds : CollisionCircle)
    (acc : Player × List Snake) (s : Snake) : Player × List Snake :=
  if s.active = false then (acc.1, acc.2 ++ [s])
  else if circleCollision playerBounds s.getCollisionBounds then
    let damage : ℚ := 5 + (⌊s.radius * 0.5⌋ : ℚ)
    ((acc.1.takeDamage damage).1, acc.2 ++ [{ s with active := false }])
  else (acc.1, acc.2 ++ [s])

/-- Model of `Game.checkCollisions()`: the bullet-snake phase followed by
the snake-player phase, with the player's collision bounds captured at
entry. -/
def Game.checkCollisions (bullets : List Bullet) (snakes : List Snake)
    (ctx : GameCtx) : List Bullet × List Snake × GameCtx :=
  let playerBounds := ctx.player.getCollisionBounds
  let r1 := Game.checkBulletSnakeCollisions bullets snakes ctx
  let r2 := r1.2.1.foldl (Game.snakePlayerStep playerBounds) (r1.2.2.player, [])
  (r1.1, r2.2, { r1.2.2 with player := r2.1 })

/-! ## Concrete fixtures used by witnesses and counterexamples -/

/-- A trivial oracle interpretation (all transcendental calls return 0). -/
def oracleZero : MathOracle :=
  { sin := fun _ => 0, cos := fun _ => 0, sqrt := fun _ => 0,
    atan2 := fun _ _ => 0, pi := 0, rand := 0, now := 0 }

def exampleSnake : Snake :=
  { x := 0, y := 0, radius := 15, speed := 100, baseSpeed := 100,
    maxHealth := 50, health := 50, xpValue := 10, bodySegments := [],
    vx := 0, vy := 0, targetX := 0, targetY := 0, wobbleOffset := 0,
    wobbleSpeed := 3, active := true, hitFlash := 0, frozen := false }

def snakeA : Snake := { exampleSnake with maxHealth := 100, health := 100 }

def snakeB : Snake := { exampleSnake with x := 1, maxHealth := 100, health := 100 }

def exampleBullet : Bullet :=
  { x := 100, y := 100, angle := 0, radius := 6, speed := 500, damage := 25,
    vx := 50, vy := 0, trail := [], maxTrailLength := 8, active := true }

def bulletAtOrigin : Bullet := { exampleBullet with x := 0, y := 0, damage := 10, vx := 0 }

def examplePlayer : Player :=
  { x := 600, y := 400, radius := 20, speed := 300, maxHealth := 100,
    health := 100, currentWeapon := WEAPONS_PISTOL, lastShootTime := 0,
    muzzleFlashTime := 0, recoilOffset := 0, gunLength := 28, gunOffsetY := -8,
    keys := { up := false, down := false, left := false, right := false },
    mouseX := 600, mouseY := 400, mouseDown := false, powerups := Powerups.none,
    rotation := 0, pulsePhase := 0, active := true, invulnerable := false,
    invulnerableTime := 0 }

def playerInvuln : Player := { examplePlayer with invulnerable := true, invulnerableTime := 1/2 }

def exampleCtx : GameCtx :=
  { player := examplePlayer, leveling := { xp := 0, level := 1, totalKills := 0, score := 0 },
    points := 0 }

/-! ## Helper lemmas -/

/-- Faithfulness bridge: over any inputs, the embedded `circleCollision`
agrees with the source's `Math.sqrt`-based comparison read in the reals. -/
lemma circleCollision_eq_real_sqrt (c1 c2 : CollisionCircle) :
    circleCollision c1 c2 ↔
      Real.sqrt (((c1.x : ℝ) - c2.x) ^ 2 + ((c1.y : ℝ) - c2.y) ^ 2)
        < (c1.radius : ℝ) + c2.radius := by
  unfold circleCollision
  constructor
  · rintro ⟨hlt, hnn⟩
    have hnn' : (0 : ℝ) ≤ (c1.radius : ℝ) + c2.radius := by exact_mod_cast hnn
    have hlt' : ((c1.x : ℝ) - c2.x) ^ 2 + ((c1.y : ℝ) - c2.y) ^ 2
        < ((c1.radius : ℝ) + c2.radius) ^ 2 := by
      exact_mod_cast hlt
    have hpos : (0 : ℝ) < (c1.radius : ℝ) + c2.radius := by
      rcases eq_or_lt_of_le hnn' with h | h
      · exfalso
        have hge : (0 : ℝ) ≤ ((c1.x : ℝ) - c2.x) ^ 2 + ((c1.y : ℝ) - c2.y) ^ 2 := by positivity
        rw [← h] at hlt'
        simp at hlt'
        nlinarith
      · exact h
    exact (Real.sqrt_lt' hpos).mpr hlt'
  · intro h
    have hnn' : (0 : ℝ) ≤ Real.sqrt (((c1.x : ℝ) - c2.x) ^ 2 + ((c1.y : ℝ) - c2.y) ^ 2) :=
      Real.sqrt_nonneg _
    have hpos : (0 : ℝ) < (c1.radius : ℝ) + c2.radius := lt_of_le_of_lt hnn' h
    have hlt' := (Real.sqrt_lt' hpos).mp h
    constructor
    · exact_mod_cast hlt'
    · exact_mod_cast hpos.le

/-- For a reachable level (level ≥ 1) the xp threshold is positive (in
fact at least 100), so `addXp`'s while loop always terminates. -/
lemma LevelingSystem.getXpForLevel_pos (level : ℕ) (h : 1 ≤ level) :
    0 < LevelingSystem.getXpForLevel level := by
  unfold LevelingSystem.getXpForLevel
  have h3 : 1 ≤ level ^ 3 := Nat.one_le_pow 3 level h
  have h1 : 1 * 1 ≤ 10000 * level ^ 3 := by nlinarith [h3]
  have := Nat.le_sqrt.mpr h1
  omega

lemma LevelingSystem.getXpForLevel_one : LevelingSystem.getXpForLevel 1 = 100 := by
  unfold LevelingSystem.getXpForLevel
  norm_num

lemma LevelingSystem.getXpForLevel_two : LevelingSystem.getXpForLevel 2 = 282 := by
  unfold LevelingSystem.getXpForLevel
  norm_num

lemma LevelingSystem.getXpForLevel_three : LevelingSystem.getXpForLevel 3 = 519 := by
  unfold LevelingSystem.getXpForLevel
  norm_num

lemma LevelingSystem.getXpForLevel_four : LevelingSystem.getXpForLevel 4 = 800 := by
  unfold LevelingSystem.getXpForLevel
  norm_num

/-- One iteration of `addXp`'s while loop when the guard holds. -/
lemma LevelingSystem.levelUpLoop_step (xp level : ℕ)
    (h1 : 0 < LevelingSystem.getXpForLevel level)
    (h2 : LevelingSystem.getXpForLevel level ≤ xp) :
    LevelingSystem.levelUpLoop xp level =
      ((LevelingSystem.levelUpLoop (xp - LevelingSystem.getXpForLevel level) (level + 1)).1,
       (LevelingSystem.levelUpLoop (xp - LevelingSystem.getXpForLevel level) (level + 1)).2.1,
       (LevelingSystem.levelUpLoop (xp - LevelingSystem.getXpForLevel level) (level + 1)).2.2 + 1) := by
  rw [LevelingSystem.levelUpLoop]
  rw [dif_pos ⟨h1, h2⟩]

/-- Exit of `addXp`'s while loop when the guard fails. -/
lemma LevelingSystem.levelUpLoop_stop (xp level : ℕ)
    (h : ¬ (0 < LevelingSystem.getXpForLevel level ∧ LevelingSystem.getXpForLevel level ≤ xp)) :
    LevelingSystem.levelUpLoop xp level = (xp, level, 0) := by
  rw [LevelingSystem.levelUpLoop, dif_neg h]

/-! ## Claim C8 -/

/-- C8: `xpRequiredForLevel` is strictly increasing: for every level L ≥ 1,
`getXpForLevel (L+1) > getXpForLevel L`, where
`getXpForLevel L = ⌊100 · L^1.5⌋`. -/
theorem spec_C8_getXpForLevel_strictMono (L : ℕ) (hL : 1 ≤ L) :
    LevelingSystem.getXpForLevel L < LevelingSystem.getXpForLevel (L + 1) := by
  unfold LevelingSystem.getXpForLevel
  have hs2 : Nat.sqrt (10000 * L ^ 3) * Nat.sqrt (10000 * L ^ 3) ≤ 10000 * L ^ 3 :=
    Nat.sqrt_le _
  have hup : Nat.sqrt (10000 * L ^ 3) ≤ 100 * L ^ 2 := by
    have h1 : 10000 * L ^ 3 ≤ 10000 * L ^ 4 := by
      have : L ^ 3 ≤ L ^ 4 := Nat.pow_le_pow_right hL (by omega)
      omega
    have h2 : Nat.sqrt (10000 * L ^ 4) = 100 * L ^ 2 := by
      have he : 10000 * L ^ 4 = (100 * L ^ 2) ^ 2 := by ring
      rw [he, Nat.sqrt_eq']
    calc Nat.sqrt (10000 * L ^ 3) ≤ Nat.sqrt (10000 * L ^ 4) := Nat.sqrt_le_sqrt h1
      _ = 100 * L ^ 2 := h2
  have hstep : Nat.sqrt (10000 * L ^ 3) + 1 ≤ Nat.sqrt (10000 * (L + 1) ^ 3) := by
    apply Nat.le_sqrt.mpr
    nlinarith [hs2, hup]
  omega

/-- Witness for C8 at L = 3. -/
theorem spec_C8_witness :
    LevelingSystem.getXpForLevel 3 < LevelingSystem.getXpForLevel 4 :=
  spec_C8_getXpForLevel_strictMono 3 (by norm_num)

/-! ## Claim C9 -/

/-- C9: the spawn interval of the difficulty model is monotonically
non-increasing as the level increases and never drops below the
configured minimum floor (`SNAKE_MIN_SPAWN_RATE = 400`); the difficulty
record exposes exactly `getSpawnRate`. -/
theorem spec_C9_spawnRate_antitone_floored (ls1 ls2 : LevelingSystem)
    (h1 : 1 ≤ ls1.level) (h2 : ls1.level ≤ ls2.level) :
    (ls2.getDifficultyInfo).spawnRate ≤ (ls1.getDifficultyInfo).spawnRate ∧
    SNAKE_MIN_SPAWN_RATE ≤ (ls2.getDifficultyInfo).spawnRate ∧
    (ls1.getDifficultyInfo).spawnRate = ls1.getSpawnRate := by
  unfold LevelingSystem.getDifficultyInfo LevelingSystem.getSpawnRate
  unfold SNAKE_MIN_SPAWN_RATE SNAKE_SPAWN_RATE
  refine ⟨?_, ?_, rfl⟩ <;> simp only <;> omega

/-- Witness for C9 at levels 1 and 9. -/
theorem spec_C9_witness :
    (LevelingSystem.getDifficultyInfo { xp := 0, level := 9, totalKills := 0, score := 0 }).spawnRate
      ≤ (LevelingSystem.getDifficultyInfo { xp := 0, level := 1, totalKills := 0, score := 0 }).spawnRate ∧
    SNAKE_MIN_SPAWN_RATE ≤ (LevelingSystem.getDifficultyInfo { xp := 0, level := 9, totalKills := 0, score := 0 }).spawnRate ∧
    (LevelingSystem.getDifficultyInfo { xp := 0, level := 1, totalKills := 0, score := 0 }).spawnRate
      = LevelingSystem.getSpawnRate { xp := 0, level := 1, totalKills := 0, score := 0 } :=
  spec_C9_spawnRate_antitone_floored
    { xp := 0, level := 1, totalKills := 0, score := 0 }
    { xp := 0, level := 9, totalKills := 0, score := 0 }
    (by norm_num) (by norm_num)

/-! ## Claim C2 -/

/-- C2 counterexample: `Snake.takeDamage` does not clamp health to the
`[0, maxHealth]` range.  A snake with `health = maxHealth = 50` hit for 60
damage ends the call with `health = -10 < 0` (it is deactivated, but the
stored health is negative, so the claimed clamping does not happen). -/
theorem spec_C2_counterexample :
    (exampleSnake.takeDamage 60).1.health = -10 ∧
    (exampleSnake.takeDamage 60).1.health < 0 ∧
    (exampleSnake.takeDamage 60).1.active = false := by
  norm_num [Snake.takeDamage, exampleSnake]

/-- C2 amended: `takeDamage` subtracts the damage from health without
clamping, so health can be negative after a lethal hit; the snake is
deactivated and reported killed exactly when the resulting health is ≤ 0,
and for nonnegative damage health never exceeds `maxHealth`. -/
theorem spec_C2_takeDamage_subtracts_without_clamp (s : Snake) (damage : ℚ)
    (hd : 0 ≤ damage) (hh : s.health ≤ s.maxHealth) :
    (s.takeDamage damage).1.health = s.health - damage ∧
    (s.takeDamage damage).1.health ≤ s.maxHealth ∧
    ((s.takeDamage damage).2 = true ↔ s.health - damage ≤ 0) ∧
    (s.health - damage ≤ 0 → (s.takeDamage damage).1.active = false) ∧
    (0 < s.health - damage → (s.takeDamage damage).1.active = s.active) := by
  simp only [Snake.takeDamage]
  split_ifs with h
  · exact ⟨rfl, by show s.health - damage ≤ s.maxHealth; linarith, by simp [h],
      fun _ => rfl, fun hc => absurd h (by linarith)⟩
  · exact ⟨rfl, by show s.health - damage ≤ s.maxHealth; linarith, by simp [h],
      fun hc => absurd hc h, fun _ => rfl⟩

/-- Witness for C2's amended theorem: a live snake at 50/50 health hit for
10 damage. -/
theorem spec_C2_witness :
    (exampleSnake.takeDamage 10).1.health = exampleSnake.health - 10 ∧
    (exampleSnake.takeDamage 10).1.health ≤ exampleSnake.maxHealth ∧
    ((exampleSnake.takeDamage 10).2 = true ↔ exampleSnake.health - 10 ≤ 0) ∧
    (exampleSnake.health - 10 ≤ 0 → (exampleSnake.takeDamage 10).1.active = false) ∧
    (0 < exampleSnake.health - 10 → (exampleSnake.takeDamage 10).1.active = exampleSnake.active) :=
  spec_C2_takeDamage_subtracts_without_clamp exampleSnake 10 (by norm_num)
    (by norm_num [exampleSnake])

/-! ## Claim C7 -/

/-- C7: `Player.takeDamage` is a complete no-op returning "not killed"
while the shield flag or the invulnerability window is active (the full
player record is unchanged); otherwise it subtracts the damage from
health, grants the fixed one-second invulnerability window, and returns
killed exactly when the subtracted health is ≤ 0 (in which case health is
stored as 0 and the player deactivated). -/
theorem spec_C7_player_takeDamage (p : Player) (dmg : ℚ) :
    Player.takeDamage { p with invulnerable := true } dmg = ({ p with invulnerable := true }, false) ∧
    Player.takeDamage { p with powerups := { p.powerups with shield := true } } dmg =
      ({ p with powerups := { p.powerups with shield := true } }, false) ∧
    Player.takeDamage { p with invulnerable := false, powerups := { p.powerups with shield := false } } dmg =
      (if p.health - dmg ≤ 0 then
        ({ p with health := 0, active := false, invulnerable := true, invulnerableTime := 1, powerups := { p.powerups with shield := false } }, true)
       else
        ({ p with health := p.health - dmg, invulnerable := true, invulnerableTime := 1, powerups := { p.powerups with shield := false } }, false)) := by
  refine ⟨?_, ?_, ?_⟩
  · simp [Player.takeDamage]
  · simp [Player.takeDamage]
  · simp only [Player.takeDamage, Player.setInvulnerable]
    split_ifs with h1 h2 <;> simp_all

/-! ## Claim C10 -/

/-- C10: a bullet's combat and motion parameters are fixed at
construction: along any sequence of `update` calls (each with arbitrary
delta and canvas size), `radius`, `damage`, `speed`, the velocity vector
`(vx, vy)`, the `angle` and the trail capacity keep their construction-time
values — `update` only ever changes the position, the trail history and
the active flag, so a power-up expiring after firing can never alter an
in-flight bullet. -/
theorem spec_C10_bullet_params_fixed (b : Bullet) (steps : List (ℚ × ℚ × ℚ)) :
    (steps.foldl (fun acc st => acc.update st.1 st.2.1 st.2.2) b).radius = b.radius ∧
    (steps.foldl (fun acc st => acc.update st.1 st.2.1 st.2.2) b).damage = b.damage ∧
    (steps.foldl (fun acc st => acc.update st.1 st.2.1 st.2.2) b).speed = b.speed ∧
    (steps.foldl (fun acc st => acc.update st.1 st.2.1 st.2.2) b).vx = b.vx ∧
    (steps.foldl (fun acc st => acc.update st.1 st.2.1 st.2.2) b).vy = b.vy ∧
    (steps.foldl (fun acc st => acc.update st.1 st.2.1 st.2.2) b).angle = b.angle ∧
    (steps.foldl (fun acc st => acc.update st.1 st.2.1 st.2.2) b).maxTrailLength = b.maxTrailLength := by
  induction steps generalizing b with
  | nil => exact ⟨rfl, rfl, rfl, rfl, rfl, rfl, rfl⟩
  | cons st rest ih =>
    simp only [List.foldl_cons]
    obtain ⟨h1, h2, h3, h4, h5, h6, h7⟩ := ih (b.update st.1 st.2.1 st.2.2)
    refine ⟨?_, ?_, ?_, ?_, ?_, ?_, ?_⟩ <;>
      simp_all [Bullet.update]

/-! ## Claim C3 -/

/-- Dragging the body segments never moves the snake's own position or
timers. -/
lemma Snake.updateBodySegments_preserves (o : MathOracle) (s : Snake) :
    (s.updateBodySegments o).x = s.x ∧ (s.updateBodySegments o).y = s.y ∧
    (s.updateBodySegments o).hitFlash = s.hitFlash := by
  cases h : s.bodySegments <;> simp [Snake.updateBodySegments, h]

/-- Firing never moves the player or touches the invulnerability timer. -/
lemma Player.shoot_x (o : MathOracle) (p : Player) : (p.shoot o).1.x = p.x := by
  simp only [Player.shoot]
  split_ifs <;> simp

lemma Player.shoot_y (o : MathOracle) (p : Player) : (p.shoot o).1.y = p.y := by
  simp only [Player.shoot]
  split_ifs <;> simp

lemma Player.shoot_invulnerableTime (o : MathOracle) (p : Player) :
    (p.shoot o).1.invulnerableTime = p.invulnerableTime := by
  simp only [Player.shoot]
  split_ifs <;> simp

/-- A zero-delta bullet update does not move the bullet. -/
lemma Bullet.update_zero_noop (b : Bullet) (canvasWidth canvasHeight : ℚ) :
    (b.update 0 canvasWidth canvasHeight).x = b.x ∧
    (b.update 0 canvasWidth canvasHeight).y = b.y := by
  simp [Bullet.update]

/-- A zero-delta snake update does not move the snake's head position and
does not change the hit-flash timer. -/
lemma Snake.update_zero_head_noop (o : MathOracle) (s : Snake) (playerX playerY : ℚ) :
    (Snake.update o s 0 playerX playerY).x = s.x ∧
    (Snake.update o s 0 playerX playerY).y = s.y ∧
    (Snake.update o s 0 playerX playerY).hitFlash = s.hitFlash := by
  simp only [Snake.update]
  split_ifs <;>
    simp_all [Snake.updateBodySegments_preserves, apply_ite]

/-- The animation stage never touches position, bounds data, keys, or the
invulnerability state. -/
lemma Player.updateAnimations_frame (p : Player) (deltaTime : ℚ) :
    (p.updateAnimations deltaTime).x = p.x ∧
    (p.updateAnimations deltaTime).y = p.y ∧
    (p.updateAnimations deltaTime).radius = p.radius ∧
    (p.updateAnimations deltaTime).invulnerableTime = p.invulnerableTime ∧
    (p.updateAnimations deltaTime).mouseDown = p.mouseDown := by
  simp only [Player.updateAnimations]
  split_ifs <;> simp

/-- A zero-delta movement stage leaves an in-bounds player where it is. -/
lemma Player.updateMovement_zero_delta (o : MathOracle) (p : Player)
    (canvasWidth canvasHeight : ℚ)
    (hx1 : p.radius ≤ p.x) (hx2 : p.x ≤ canvasWidth - p.radius)
    (hy1 : p.radius ≤ p.y) (hy2 : p.y ≤ canvasHeight - p.radius) :
    (p.updateMovement o 0 canvasWidth canvasHeight).x = p.x ∧
    (p.updateMovement o 0 canvasWidth canvasHeight).y = p.y ∧
    (p.updateMovement o 0 canvasWidth canvasHeight).invulnerableTime = p.invulnerableTime ∧
    (p.updateMovement o 0 canvasWidth canvasHeight).mouseDown = p.mouseDown := by
  simp only [Player.updateMovement, clamp, angleBetween]
  simp [min_eq_right hx2, max_eq_right hx1, min_eq_right hy2, max_eq_right hy1]

/-- A zero-delta invulnerability stage keeps the countdown value (the flag
may clear when the countdown is already non-positive, but the stored time
is unchanged). -/
lemma Player.updateInvulnerability_zero_delta (p : Player) :
    (p.updateInvulnerability 0).x = p.x ∧
    (p.updateInvulnerability 0).y = p.y ∧
    (p.updateInvulnerability 0).invulnerableTime = p.invulnerableTime ∧
    (p.updateInvulnerability 0).mouseDown = p.mouseDown := by
  simp only [Player.updateInvulnerability]
  split_ifs <;> simp

/-- A zero-delta player update does not move an in-bounds player and does
not change the invulnerability countdown (even if a shot is fired on this
tick). -/
lemma Player.update_zero_position_noop (o : MathOracle) (p : Player) (canvasWidth canvasHeight : ℚ)
    (hx1 : p.radius ≤ p.x) (hx2 : p.x ≤ canvasWidth - p.radius)
    (hy1 : p.radius ≤ p.y) (hy2 : p.y ≤ canvasHeight - p.radius) :
    (Player.update o p 0 canvasWidth canvasHeight).1.x = p.x ∧
    (Player.update o p 0 canvasWidth canvasHeight).1.y = p.y ∧
    (Player.update o p 0 canvasWidth canvasHeight).1.invulnerableTime = p.invulnerableTime := by
  obtain ⟨a1, a2, a3, a4, a5⟩ := Player.updateAnimations_frame p 0
  obtain ⟨m1, m2, m3, m4⟩ := Player.updateMovement_zero_delta o (p.updateAnimations 0)
    canvasWidth canvasHeight (a3 ▸ a1 ▸ hx1) (a3 ▸ a1 ▸ hx2) (a3 ▸ a2 ▸ hy1) (a3 ▸ a2 ▸ hy2)
  obtain ⟨i1, i2, i3, i4⟩ :=
    Player.updateInvulnerability_zero_delta ((p.updateAnimations 0).updateMovement o 0 canvasWidth canvasHeight)
  simp only [Player.update]
  split_ifs with h
  · refine ⟨?_, ?_, ?_⟩
    · rw [Player.shoot_x, i1, m1, a1]
    · rw [Player.shoot_y, i2, m2, a2]
    · rw [Player.shoot_invulnerableTime, i3, m3, a4]
  · exact ⟨by rw [i1, m1, a1], by rw [i2, m2, a2], by rw [i3, m3, a4]⟩

/-- C3 amended: a tick whose elapsed-time delta is zero is a no-op for
positions and the invulnerability timer — `cappedDelta 0 = 0` and the
bullet, snake and (in-bounds) player updates leave their positions and the
invulnerability countdown unchanged at delta 0.  The delta is however only
clamped from above (`cappedDelta = min(delta, 0.1)`): a negative delta is
not treated as 0 and does reverse motion and timers
(`spec_C3_counterexample`). -/
theorem spec_C3_zero_delta_is_noop (o : MathOracle) (b : Bullet) (s : Snake) (p : Player)
    (playerX playerY canvasWidth canvasHeight : ℚ)
    (hx1 : p.radius ≤ p.x) (hx2 : p.x ≤ canvasWidth - p.radius)
    (hy1 : p.radius ≤ p.y) (hy2 : p.y ≤ canvasHeight - p.radius) :
    Game.cappedDelta 0 = 0 ∧
    (b.update 0 canvasWidth canvasHeight).x = b.x ∧
    (b.update 0 canvasWidth canvasHeight).y = b.y ∧
    (Snake.update o s 0 playerX playerY).x = s.x ∧
    (Snake.update o s 0 playerX playerY).y = s.y ∧
    (Snake.update o s 0 playerX playerY).hitFlash = s.hitFlash ∧
    (Player.update o p 0 canvasWidth canvasHeight).1.x = p.x ∧
    (Player.update o p 0 canvasWidth canvasHeight).1.y = p.y ∧
    (Player.update o p 0 canvasWidth canvasHeight).1.invulnerableTime = p.invulnerableTime := by
  obtain ⟨hb1, hb2⟩ := Bullet.update_zero_noop b canvasWidth canvasHeight
  obtain ⟨hs1, hs2, hs3⟩ := Snake.update_zero_head_noop o s playerX playerY
  obtain ⟨hp1, hp2, hp3⟩ := Player.update_zero_position_noop o p canvasWidth canvasHeight hx1 hx2 hy1 hy2
  exact ⟨min_eq_left (by norm_num), hb1, hb2, hs1, hs2, hs3, hp1, hp2, hp3⟩

/-- Witness for C3's amended theorem at a concrete in-bounds state. -/
theorem spec_C3_witness :
    Game.cappedDelta 0 = 0 ∧
    (exampleBullet.update 0 1200 800).x = exampleBullet.x ∧
    (exampleBullet.update 0 1200 800).y = exampleBullet.y ∧
    (Snake.update oracleZero exampleSnake 0 0 0).x = exampleSnake.x ∧
    (Snake.update oracleZero exampleSnake 0 0 0).y = exampleSnake.y ∧
    (Snake.update oracleZero exampleSnake 0 0 0).hitFlash = exampleSnake.hitFlash ∧
    (Player.update oracleZero examplePlayer 0 1200 800).1.x = examplePlayer.x ∧
    (Player.update oracleZero examplePlayer 0 1200 800).1.y = examplePlayer.y ∧
    (Player.update oracleZero examplePlayer 0 1200 800).1.invulnerableTime = examplePlayer.invulnerableTime :=
  spec_C3_zero_delta_is_noop oracleZero exampleBullet exampleSnake examplePlayer 0 0 1200 800
    (by norm_num [examplePlayer]) (by norm_num [examplePlayer])
    (by norm_num [examplePlayer]) (by norm_num [examplePlayer])

/-- C3 counterexample: a negative delta is not treated as 0.
`cappedDelta (-1) = -1` (only the upper cap applies), a bullet with
positive x-velocity moves backward from `x = 100` to `x = 50`, and the
invulnerability countdown increases from `1/2` to `3/2` — the tick
reverses simulation state instead of being a no-op. -/
theorem spec_C3_counterexample :
    Game.cappedDelta (-1) = -1 ∧
    Game.cappedDelta (-1) ≠ 0 ∧
    (exampleBullet.update (Game.cappedDelta (-1)) 1200 800).x = 50 ∧
    (exampleBullet.update (Game.cappedDelta (-1)) 1200 800).x < exampleBullet.x ∧
    (Player.update oracleZero playerInvuln (Game.cappedDelta (-1)) 1200 800).1.invulnerableTime = 3/2 ∧
    playerInvuln.invulnerableTime
      < (Player.update oracleZero playerInvuln (Game.cappedDelta (-1)) 1200 800).1.invulnerableTime := by
  have hc : Game.cappedDelta (-1) = -1 := by
    norm_num [Game.cappedDelta, min_def]
  rw [hc]
  have hb : (exampleBullet.update (-1) 1200 800).x = 50 := by
    norm_num [Bullet.update, exampleBullet]
  have hp : (Player.update oracleZero playerInvuln (-1) 1200 800).1.invulnerableTime = 3/2 := by
    norm_num [Player.update, Player.updateAnimations, Player.updateMovement,
      Player.updateInvulnerability, Player.canShoot, Player.shoot, clamp, angleBetween,
      playerInvuln, examplePlayer, oracleZero, Powerups.none, min_def, max_def]
  refine ⟨rfl, by norm_num, hb, ?_, hp, ?_⟩
  · rw [hb]
    norm_num [exampleBullet]
  · rw [hp]
    norm_num [playerInvuln, examplePlayer]

/-! ## Claim C4 -/

/-- Running `addXp`'s while loop across exactly two thresholds: with the
award at least `thr L + thr (L+1)` but short of the third threshold, the
loop body runs exactly twice. -/
lemma LevelingSystem.levelUpLoop_two_steps (L amount : ℕ) (hL : 1 ≤ L)
    (hlo : LevelingSystem.getXpForLevel L + LevelingSystem.getXpForLevel (L + 1) ≤ amount)
    (hhi : amount < LevelingSystem.getXpForLevel L + LevelingSystem.getXpForLevel (L + 1)
      + LevelingSystem.getXpForLevel (L + 2)) :
    LevelingSystem.levelUpLoop amount L =
      (amount - (LevelingSystem.getXpForLevel L + LevelingSystem.getXpForLevel (L + 1)), L + 2, 2) := by
  have pos1 := LevelingSystem.getXpForLevel_pos L hL
  have pos2 := LevelingSystem.getXpForLevel_pos (L + 1) (by omega)
  have h1 := LevelingSystem.levelUpLoop_step amount L pos1 (by omega)
  have h2 := LevelingSystem.levelUpLoop_step (amount - LevelingSystem.getXpForLevel L) (L + 1)
    pos2 (by omega)
  have h3 := LevelingSystem.levelUpLoop_stop
    (amount - LevelingSystem.getXpForLevel L - LevelingSystem.getXpForLevel (L + 1)) (L + 2)
    (by
      rintro ⟨-, hle⟩
      omega)
  rw [h1, h2, h3]
  refine Prod.ext ?_ (Prod.ext ?_ ?_) <;> simp <;> try omega

/-- C4 amended: starting from zero stored experience at a level L ≥ 1, a
single `addXp` call whose award is at least the sum of the next two
thresholds *and less than the sum of the next three* produces exactly two
level-up notifications, leaves the stored experience at the award minus
the two consumed thresholds, counts the kill and the score, and returns
that a level-up occurred.  (The upper bound is necessary: an award
reaching three consecutive thresholds fires three notifications —
`spec_C4_counterexample`.) -/
theorem spec_C4_addXp_two_level_jump (L amount kills score : ℕ) (hL : 1 ≤ L)
    (hlo : LevelingSystem.getXpForLevel L + LevelingSystem.getXpForLevel (L + 1) ≤ amount)
    (hhi : amount < LevelingSystem.getXpForLevel L + LevelingSystem.getXpForLevel (L + 1)
      + LevelingSystem.getXpForLevel (L + 2)) :
    LevelingSystem.addXp { xp := 0, level := L, totalKills := kills, score := score } amount =
      ({ xp := amount - (LevelingSystem.getXpForLevel L + LevelingSystem.getXpForLevel (L + 1)),
         level := L + 2, totalKills := kills + 1, score := score + amount * 10 }, true, 2) := by
  simp only [LevelingSystem.addXp, Nat.zero_add]
  rw [LevelingSystem.levelUpLoop_two_steps L amount hL hlo hhi]
  simp

/-- Witness for C4's amended theorem: level 1, award 382 = thr(1) + thr(2). -/
theorem spec_C4_witness :
    LevelingSystem.addXp { xp := 0, level := 1, totalKills := 0, score := 0 } 382 =
      ({ xp := 382 - (LevelingSystem.getXpForLevel 1 + LevelingSystem.getXpForLevel (1 + 1)),
         level := 1 + 2, totalKills := 0 + 1, score := 0 + 382 * 10 }, true, 2) :=
  spec_C4_addXp_two_level_jump 1 382 0 0 (by norm_num)
    (by norm_num [LevelingSystem.getXpForLevel_one, LevelingSystem.getXpForLevel_two])
    (by norm_num [LevelingSystem.getXpForLevel_one, LevelingSystem.getXpForLevel_two,
      LevelingSystem.getXpForLevel_three])

/-- C4 counterexample to the claim as stated: the award 901 at level 1
satisfies the claim's hypothesis (it is at least thr(1) + thr(2) = 382),
yet the call fires **three** level-up notifications, not exactly two,
because 901 also covers thr(3) = 519. -/
theorem spec_C4_counterexample :
    LevelingSystem.getXpForLevel 1 + LevelingSystem.getXpForLevel 2 ≤ 901 ∧
    (LevelingSystem.addXp { xp := 0, level := 1, totalKills := 0, score := 0 } 901).2.2 = 3 := by
  have pos1 := LevelingSystem.getXpForLevel_pos 1 (by norm_num)
  have pos2 := LevelingSystem.getXpForLevel_pos 2 (by norm_num)
  have pos3 := LevelingSystem.getXpForLevel_pos 3 (by norm_num)
  have h1 := LevelingSystem.levelUpLoop_step 901 1 pos1
    (by norm_num [LevelingSystem.getXpForLevel_one])
  have e1 : 901 - LevelingSystem.getXpForLevel 1 = 801 := by
    rw [LevelingSystem.getXpForLevel_one]
  have h2 := LevelingSystem.levelUpLoop_step 801 2 pos2
    (by norm_num [LevelingSystem.getXpForLevel_two])
  have e2 : 801 - LevelingSystem.getXpForLevel 2 = 519 := by
    rw [LevelingSystem.getXpForLevel_two]
  have h3 := LevelingSystem.levelUpLoop_step 519 3 pos3
    (by norm_num [LevelingSystem.getXpForLevel_three])
  have e3 : 519 - LevelingSystem.getXpForLevel 3 = 0 := by
    rw [LevelingSystem.getXpForLevel_three]
  have h4 := LevelingSystem.levelUpLoop_stop 0 4
    (by
      rintro ⟨-, hle⟩
      rw [LevelingSystem.getXpForLevel_four] at hle
      omega)
  have hloop : LevelingSystem.levelUpLoop 901 1 = (0, 4, 3) := by
    rw [h1, e1, h2, e2, h3, e3, h4]
  constructor
  · norm_num [LevelingSystem.getXpForLevel_one, LevelingSystem.getXpForLevel_two]
  · simp only [LevelingSystem.addXp, Nat.zero_add, hloop]

/-! ## Claim C5 -/

/-- Under `Map.set` with a present key, the stored key sequence is
unchanged (no duplicate entry is appended). -/
lemma PowerupManager.mapSet_keys_of_present (m : List (String × PowerupEntry)) (k : String)
    (v : PowerupEntry) (hk : k ∈ m.map Prod.fst) :
    (PowerupManager.mapSet m k v).map Prod.fst = m.map Prod.fst := by
  have hany : m.any (fun e => e.1 == k) = true := by
    simp only [List.any_eq_true]
    obtain ⟨e, he, hek⟩ := List.mem_map.mp hk
    exact ⟨e, he, by simp [hek]⟩
  unfold PowerupManager.mapSet
  rw [if_pos hany, List.map_map]
  apply List.map_congr_left
  intro e _
  by_cases hek : e.1 = k
  · simp [hek]
  · simp [hek]

/-- Looking the key up after `Map.set` returns the freshly stored value. -/
lemma PowerupManager.mapSet_lookup_of_present (m : List (String × PowerupEntry)) (k : String)
    (v : PowerupEntry) (hk : k ∈ m.map Prod.fst) :
    (PowerupManager.mapSet m k v).lookup k = some v := by
  have hany : m.any (fun e => e.1 == k) = true := by
    simp only [List.any_eq_true]
    obtain ⟨e, he, hek⟩ := List.mem_map.mp hk
    exact ⟨e, he, by simp [hek]⟩
  unfold PowerupManager.mapSet
  rw [if_pos hany]
  clear hany
  induction m with
  | nil => simp at hk
  | cons e rest ih =>
    by_cases hek : e.1 = k
    · have he : (fun e2 : String × PowerupEntry => if e2.1 = k then (k, v) else e2) e = (k, v) := by
        simp [hek]
      simp only [List.map_cons, he]
      simp [List.lookup]
    · have he : (fun e2 : String × PowerupEntry => if e2.1 = k then (k, v) else e2) e = e := by
        simp [hek]
      simp only [List.map_cons, he]
      have hkrest : k ∈ rest.map Prod.fst := by
        simp only [List.map_cons, List.mem_cons] at hk
        rcases hk with h | h
        · exact absurd h.symm hek
        · exact h
      have hbeq : (k == e.1) = false := by
        simp only [beq_eq_false_iff_ne, ne_eq]
        intro hc
        exact hek hc.symm
      cases e with
      | mk e1 e2 =>
        rw [List.lookup_cons]
        simp only at hbeq
        simp only [hbeq]
        exact ih hkrest

/-- Under the `Map` key-uniqueness invariant, `Map.set` on a present key
leaves exactly one entry for that key. -/
lemma PowerupManager.mapSet_countP_of_present (m : List (String × PowerupEntry)) (k : String)
    (v : PowerupEntry) (hn : (m.map Prod.fst).Nodup) (hk : k ∈ m.map Prod.fst) :
    (PowerupManager.mapSet m k v).countP (fun e => decide (e.1 = k)) = 1 := by
  have hkeys := PowerupManager.mapSet_keys_of_present m k v hk
  have h1 : (PowerupManager.mapSet m k v).countP (fun e => decide (e.1 = k))
      = ((PowerupManager.mapSet m k v).map Prod.fst).countP (fun x => decide (x = k)) := by
    rw [List.countP_map]
    rfl
  rw [h1, hkeys]
  have h2 : (m.map Prod.fst).countP (fun x => decide (x = k)) = (m.map Prod.fst).count k := by
    rw [List.count_eq_countP]
    apply List.countP_congr
    intro x _
    simp
  rw [h2]
  exact List.count_eq_one_of_mem hn hk

/-- For any id other than `nuke`, `activate` stores the power-up in the
active map with `Map.set` and a fresh `remainingTime` equal to the full
duration. -/
lemma PowerupManager.activate_sets (pm : PowerupManager) (powerup : PowerupDef)
    (player : Player) (snakes : List Snake) (hid : powerup.id ≠ "nuke") :
    ((pm.activate powerup player snakes).1).activePowerups =
      PowerupManager.mapSet pm.activePowerups powerup.id
        { pdef := powerup, remainingTime := powerup.duration } := by
  unfold PowerupManager.activate
  split_ifs with h1 h2 h3
  · exact absurd h1 hid
  · rfl
  · rfl
  · rfl

/-- C5: activating any of the source tables' power-ups that has a positive
duration while an entry with the same id is already in the active map
overwrites that entry: the key sequence is unchanged, the map holds
exactly one entry for that id afterwards, and its remaining time is reset
to the full duration — no second timer is stacked. -/
theorem spec_C5_activate_refreshes (powerup : PowerupDef) (pm : PowerupManager)
    (player : Player) (snakes : List Snake)
    (hmem : powerup ∈ POWERUP_TYPES ++ POWER_PACKS) (hdur : 0 < powerup.duration)
    (hk : powerup.id ∈ pm.activePowerups.map Prod.fst)
    (hn : (pm.activePowerups.map Prod.fst).Nodup) :
    ((pm.activate powerup player snakes).1).activePowerups.map Prod.fst
        = pm.activePowerups.map Prod.fst ∧
    ((pm.activate powerup player snakes).1).activePowerups.countP
        (fun e => decide (e.1 = powerup.id)) = 1 ∧
    ((pm.activate powerup player snakes).1).activePowerups.lookup powerup.id
        = some { pdef := powerup, remainingTime := powerup.duration } := by
  have hmem2 : powerup ∈ ([{ id := "rapidFire", duration := 10 }, { id := "wideShot", duration := 10 },
      { id := "shield", duration := 5 }, { id := "nuke", duration := 0 },
      { id := "fasterGuns", duration := 12 }, { id := "shield", duration := 8 },
      { id := "freezeSnakes", duration := 5 }, { id := "callForHelp", duration := 15 }] : List PowerupDef) := by
    simpa [POWERUP_TYPES, POWER_PACKS] using hmem
  have hid : powerup.id ≠ "nuke" := by
    fin_cases hmem2
    · decide
    · decide
    · decide
    · exfalso
      norm_num at hdur
    · decide
    · decide
    · decide
    · decide
  rw [PowerupManager.activate_sets pm powerup player snakes hid]
  exact ⟨PowerupManager.mapSet_keys_of_present _ _ _ hk,
    PowerupManager.mapSet_countP_of_present _ _ _ hn hk,
    PowerupManager.mapSet_lookup_of_present _ _ _ hk⟩

/-- The shield power pack of `POWER_PACKS` (id "shield", duration 8). -/
def SHIELD_PACK : PowerupDef := { id := "shield", duration := 8 }

/-- A manager with a shield entry already active, 2 seconds remaining. -/
def examplePM : PowerupManager :=
  { activePowerups := [("shield", { pdef := SHIELD_PACK, remainingTime := 2 })],
    pendingAllySpawn := false }

/-- Witness for C5: re-activating the shield power pack (duration 8) while
a shield entry with 2 seconds left is active. -/
theorem spec_C5_witness :
    ((examplePM.activate SHIELD_PACK examplePlayer []).1).activePowerups.map Prod.fst
        = examplePM.activePowerups.map Prod.fst ∧
    ((examplePM.activate SHIELD_PACK examplePlayer []).1).activePowerups.countP
        (fun e => decide (e.1 = SHIELD_PACK.id)) = 1 ∧
    ((examplePM.activate SHIELD_PACK examplePlayer []).1).activePowerups.lookup SHIELD_PACK.id
        = some { pdef := SHIELD_PACK, remainingTime := SHIELD_PACK.duration } :=
  spec_C5_activate_refreshes SHIELD_PACK examplePM examplePlayer []
    (by simp [POWERUP_TYPES, POWER_PACKS, SHIELD_PACK]) (by norm_num [SHIELD_PACK])
    (by simp [examplePM, SHIELD_PACK]) (by simp [examplePM])

/-! ## Claim C6 -/

/-- The ally's animation decay touches neither the state machine nor the
position. -/
lemma Ally.updateAnimations_keeps_state_pos (a : Ally) (deltaTime : ℚ) :
    (a.updateAnimations deltaTime).state = a.state ∧
    (a.updateAnimations deltaTime).x = a.x ∧
    (a.updateAnimations deltaTime).y = a.y := by
  simp only [Ally.updateAnimations]
  split_ifs <;> simp

/-- Firing never changes the ally's state. -/
lemma Ally.shoot_state (o : MathOracle) (a : Ally) : (a.shoot o).1.state = a.state := by
  simp only [Ally.shoot]
  split_ifs <;> simp

/-- The descent phase either stays in place or transitions to `landing`. -/
lemma Ally.updateDescending_state (a : Ally) (o : MathOracle) (deltaTime : ℚ) :
    (a.updateDescending o deltaTime).state = a.state ∨
    (a.updateDescending o deltaTime).state = AllyState.landing := by
  simp only [Ally.updateDescending]
  split_ifs <;> simp

/-- The landing phase either stays in place or transitions to `active`. -/
lemma Ally.updateLanding_state (a : Ally) (deltaTime : ℚ) :
    (a.updateLanding deltaTime).state = a.state ∨
    (a.updateLanding deltaTime).state = AllyState.active := by
  simp only [Ally.updateLanding]
  split_ifs <;> simp

/-- The combat phase either stays in place or transitions to `despawning`. -/
lemma Ally.updateActive_state (a : Ally) (o : MathOracle) (deltaTime : ℚ)
    (snakes : List Snake) :
    (a.updateActive o deltaTime snakes).1.state = a.state ∨
    (a.updateActive o deltaTime snakes).1.state = AllyState.despawning := by
  simp only [Ally.updateActive]
  split_ifs with h1
  · simp
  · split
    · split_ifs <;> first | (rw [Ally.shoot_state]; simp) | simp
    · simp

/-- The despawn phase either stays in place or transitions to `inactive`,
and never moves the ally. -/
lemma Ally.updateDespawning_state (a : Ally) (deltaTime : ℚ) :
    ((a.updateDespawning deltaTime).state = a.state ∨
     (a.updateDespawning deltaTime).state = AllyState.inactive) ∧
    (a.updateDespawning deltaTime).x = a.x ∧
    (a.updateDespawning deltaTime).y = a.y := by
  simp only [Ally.updateDespawning]
  split_ifs <;> simp

/-- C6: the ally's state machine is well-behaved for every reachable state
and update step: `update` returns no bullet while the state is
`descending` or `landing`; it does not change the position while the
state is `despawning`; and for any state, one step either stays put or
moves forward to the immediate successor along
`descending → landing → active → despawning → inactive`. -/
theorem spec_C6_ally_state_machine (o : MathOracle) (a : Ally) (deltaTime : ℚ)
    (snakes : List Snake) :
    (Ally.update { a with state := AllyState.descending } o deltaTime snakes).2 = [] ∧
    (Ally.update { a with state := AllyState.landing } o deltaTime snakes).2 = [] ∧
    (Ally.update { a with state := AllyState.despawning } o deltaTime snakes).1.x = a.x ∧
    (Ally.update { a with state := AllyState.despawning } o deltaTime snakes).1.y = a.y ∧
    ((Ally.update a o deltaTime snakes).1.state = a.state ∨
     (Ally.update a o deltaTime snakes).1.state = a.state.next) := by
  refine ⟨?_, ?_, ?_, ?_, ?_⟩
  · simp only [Ally.update]
    split_ifs with hact
    · rfl
    · have hst := (Ally.updateAnimations_keeps_state_pos { a with state := AllyState.descending } deltaTime).1
      split <;> simp_all
  · simp only [Ally.update]
    split_ifs with hact
    · rfl
    · have hst := (Ally.updateAnimations_keeps_state_pos { a with state := AllyState.landing } deltaTime).1
      split <;> simp_all
  · simp only [Ally.update]
    split_ifs with hact
    · rfl
    · have hst := (Ally.updateAnimations_keeps_state_pos { a with state := AllyState.despawning } deltaTime).1
      have hx := (Ally.updateAnimations_keeps_state_pos { a with state := AllyState.despawning } deltaTime).2.1
      have hd := (Ally.updateDespawning_state
        (Ally.updateAnimations { a with state := AllyState.despawning } deltaTime) deltaTime).2.1
      split <;> simp_all
  · simp only [Ally.update]
    split_ifs with hact
    · rfl
    · have hst := (Ally.updateAnimations_keeps_state_pos { a with state := AllyState.despawning } deltaTime).1
      have hy := (Ally.updateAnimations_keeps_state_pos { a with state := AllyState.despawning } deltaTime).2.2
      have hd := (Ally.updateDespawning_state
        (Ally.updateAnimations { a with state := AllyState.despawning } deltaTime) deltaTime).2.2
      split <;> simp_all
  · simp only [Ally.update]
    split_ifs with hact
    · left
      rfl
    · have hst := (Ally.updateAnimations_keeps_state_pos a deltaTime).1
      split
      · rename_i heq
        have hs : a.state = AllyState.descending := by rw [← hst, heq]
        rcases Ally.updateDescending_state (a.updateAnimations deltaTime) o deltaTime with h | h
        · left
          simp only [h, hst]
        · right
          simp only [h, hs, AllyState.next]
      · rename_i heq
        have hs : a.state = AllyState.landing := by rw [← hst, heq]
        rcases Ally.updateLanding_state (a.updateAnimations deltaTime) deltaTime with h | h
        · left
          simp only [h, hst]
        · right
          simp only [h, hs, AllyState.next]
      · rename_i heq
        have hs : a.state = AllyState.active := by rw [← hst, heq]
        rcases Ally.updateActive_state (a.updateAnimations deltaTime) o deltaTime snakes with h | h
        · left
          simp only [h, hst]
        · right
          simp only [h, hs, AllyState.next]
      · rename_i heq
        have hs : a.state = AllyState.despawning := by rw [← hst, heq]
        rcases (Ally.updateDespawning_state (a.updateAnimations deltaTime) deltaTime).1 with h | h
        · left
          simp only [h, hst]
        · right
          simp only [h, hs, AllyState.next]
      · rename_i heq
        left
        simp only [hst]

/-! ## Claim C1 -/

/-- Destroying a bullet does not change its damage, and destroying twice
is the same as destroying once. -/
lemma Bullet.destroy_damage (b : Bullet) : b.destroy.damage = b.damage := rfl

lemma Bullet.destroy_destroy (b : Bullet) : b.destroy.destroy = b.destroy := rfl

/-- What the inner `snakes.forEach` of the bullet-snake loop really does:
because the source checks `bullet.active` only before this loop starts,
**every** active snake whose circle overlaps the captured bullet bounds
takes the bullet's damage — not just the first — and the bullet ends
destroyed iff at least one hit occurred. -/
lemma Game.bulletSnakeStep_fold (bounds : CollisionCircle) (snakes : List Snake) :
    ∀ (b : Bullet) (pre : List Snake) (ctx : GameCtx),
    (snakes.foldl (Game.bulletSnakeStep bounds) (b, pre, ctx)).2.1
      = pre ++ snakes.map (fun s =>
          if s.active = true ∧ circleCollision bounds s.getCollisionBounds
          then (s.takeDamage b.damage).1 else s) ∧
    (snakes.foldl (Game.bulletSnakeStep bounds) (b, pre, ctx)).1
      = (if snakes.any (fun s => s.active && decide (circleCollision bounds s.getCollisionBounds))
         then b.destroy else b) := by
  induction snakes with
  | nil => intro b pre ctx; simp
  | cons s rest ih =>
    intro b pre ctx
    by_cases hs : s.active = false
    · have hstep : Game.bulletSnakeStep bounds (b, pre, ctx) s = (b, pre ++ [s], ctx) := by
        unfold Game.bulletSnakeStep
        rw [if_pos hs]
      obtain ⟨ih1, ih2⟩ := ih b (pre ++ [s]) ctx
      constructor
      · simp only [List.foldl_cons, hstep, ih1, List.map_cons]
        rw [if_neg (by simp [hs])]
        simp
      · simp only [List.foldl_cons, hstep, ih2, List.any_cons, hs, Bool.false_and, Bool.false_or]
    · have hs' : s.active = true := by
        cases h : s.active
        · exact absurd h hs
        · rfl
      by_cases hc : circleCollision bounds s.getCollisionBounds
      · have hstep : Game.bulletSnakeStep bounds (b, pre, ctx) s
            = (b.destroy, pre ++ [(s.takeDamage b.damage).1],
               if (s.takeDamage b.damage).2 then Game.handleKill ctx s.xpValue else ctx) := by
          unfold Game.bulletSnakeStep
          rw [if_neg (by simp [hs']), if_pos hc]
          rfl
        obtain ⟨ih1, ih2⟩ := ih b.destroy (pre ++ [(s.takeDamage b.damage).1])
          (if (s.takeDamage b.damage).2 then Game.handleKill ctx s.xpValue else ctx)
        constructor
        · simp only [List.foldl_cons, hstep, ih1, Bullet.destroy_damage, List.map_cons]
          rw [if_pos ⟨hs', hc⟩]
          simp
        · simp only [List.foldl_cons, hstep, ih2, List.any_cons, hs', decide_eq_true hc,
            Bool.true_and, Bool.true_or, if_pos]
          by_cases hrest : rest.any
              (fun s2 => s2.active && decide (circleCollision bounds s2.getCollisionBounds)) = true
          · rw [if_pos hrest, Bullet.destroy_destroy]
          · rw [if_neg hrest]
      · have hstep : Game.bulletSnakeStep bounds (b, pre, ctx) s = (b, pre ++ [s], ctx) := by
          unfold Game.bulletSnakeStep
          rw [if_neg (by simp [hs']), if_neg hc]
        obtain ⟨ih1, ih2⟩ := ih b (pre ++ [s]) ctx
        constructor
        · simp only [List.foldl_cons, hstep, ih1, List.map_cons]
          rw [if_neg (by simp [hc])]
          simp
        · simp only [List.foldl_cons, hstep, ih2, List.any_cons, hs', decide_eq_false hc,
            Bool.true_and, Bool.false_or]

/-- C1 amended: during one tick's collision resolution, on a circle-circle
hit the projectile is destroyed and the enemy takes damage, but the
destroyed flag is only consulted *before* the projectile's enemy iteration
begins, never inside it — so every active enemy overlapping the projectile
in that tick's iteration takes the projectile's full damage, in iteration
order.  The projectile ends the tick deactivated iff at least one enemy
was hit (so projectiles processed later in the same tick do skip it); it
is not true that only the first overlapping enemy is damaged
(`spec_C1_counterexample`). -/
theorem spec_C1_projectile_damages_every_overlap (b : Bullet) (snakes : List Snake)
    (ctx : GameCtx) (hb : b.active = true) :
    (Game.checkBulletSnakeCollisions [b] snakes ctx).2.1
      = snakes.map (fun s =>
          if s.active = true ∧ circleCollision b.getCollisionBounds s.getCollisionBounds
          then (s.takeDamage b.damage).1 else s) ∧
    (Game.checkBulletSnakeCollisions [b] snakes ctx).1
      = [if snakes.any (fun s =>
            s.active && decide (circleCollision b.getCollisionBounds s.getCollisionBounds))
         then b.destroy else b] := by
  unfold Game.checkBulletSnakeCollisions
  simp only [List.foldl_cons, List.foldl_nil]
  unfold Game.bulletStep
  rw [if_neg (by simp [hb])]
  obtain ⟨h1, h2⟩ := Game.bulletSnakeStep_fold b.getCollisionBounds snakes b [] ctx
  exact ⟨by simpa using h1, by simp [h2]⟩

/-- Witness for C1's amended theorem: one active bullet against one snake. -/
theorem spec_C1_witness :
    (Game.checkBulletSnakeCollisions [bulletAtOrigin] [snakeA] exampleCtx).2.1
      = [snakeA].map (fun s =>
          if s.active = true ∧ circleCollision bulletAtOrigin.getCollisionBounds s.getCollisionBounds
          then (s.takeDamage bulletAtOrigin.damage).1 else s) ∧
    (Game.checkBulletSnakeCollisions [bulletAtOrigin] [snakeA] exampleCtx).1
      = [if [snakeA].any (fun s =>
            s.active && decide (circleCollision bulletAtOrigin.getCollisionBounds s.getCollisionBounds))
         then bulletAtOrigin.destroy else bulletAtOrigin] :=
  spec_C1_projectile_damages_every_overlap bulletAtOrigin [snakeA] exampleCtx rfl

/-- C1 counterexample to the claim as stated: one bullet (radius 6, damage
10) at the origin overlapping two live snakes (radius 15, health 100).
After the bullet-snake collision phase the bullet is destroyed, yet
**both** snakes' health dropped from 100 to 90 — the second enemy in
iteration order also took damage from the already-deactivated projectile. -/
theorem spec_C1_counterexample :
    (Game.checkBulletSnakeCollisions [bulletAtOrigin] [snakeA, snakeB] exampleCtx).1
      = [bulletAtOrigin.destroy] ∧
    (Game.checkBulletSnakeCollisions [bulletAtOrigin] [snakeA, snakeB] exampleCtx).2.1.map Snake.health
      = [90, 90] ∧
    snakeB.health = 100 := by
  refine ⟨?_, ?_, by norm_num [snakeB, exampleSnake]⟩ <;>
    norm_num [Game.checkBulletSnakeCollisions, Game.bulletStep, Game.bulletSnakeStep,
      Game.handleKill, Bullet.getCollisionBounds, Snake.getCollisionBounds, Bullet.destroy,
      Snake.takeDamage, circleCollision, bulletAtOrigin, exampleBullet, snakeA, snakeB,
      exampleSnake, exampleCtx, List.foldl]
